import Mathlib

/-!
Shallow embedding of the streaming chat WebSocket client
(`useChatWebSocket` in `src/components/chat/ChatMessage.tsx`) of the
kubera-frontend repository.

The hook keeps its protocol state in a React `useState` record
(`ChatWebSocketState`) plus several mutable refs (`streamingContentRef`,
`reconnectAttemptsRef`, `lastMessageMetadataRef`, `currentChatIdRef`).
We package the record and the refs into a single `Session` value and
translate every event handler (`ws.onopen`, `ws.onclose`, `ws.onmessage`
dispatch, `sendMessage`, the scheduled tool-removal callback) into a pure
function on `Session`.  Side effects other than state updates (invoking
the user-supplied callbacks, scheduling timers, transmitting a payload)
are returned as explicit `Effect` values.

JavaScript `||` defaulting is falsy-aware: `0` and the empty string are
falsy, arrays are always truthy.  The helpers `jsOrStr`, `jsOrStrD`,
`jsOrNat`, `orOpt` and `jsOrIntNull` reproduce exactly the coalescing
used at each site.  `Date.getTime()` values are modelled as epoch
milliseconds (`Int`); the `reset_time` payload field is therefore an
`Option Int`.
-/

namespace Kubera

/-- Status of one tool invocation (`ToolStatus.status` in the source). -/
inductive ToolState where
  | executing
  | complete
  | error
deriving DecidableEq

/-- One entry of the active tool list (interface `ToolStatus`). -/
structure ToolStatus where
  tool_name : String
  tool_id : String
  status : ToolState
  timestamp : String
deriving DecidableEq

/-- One usage/limits record across the four rate-limit windows. -/
structure RateLimitUsage where
  burst : Nat
  per_chat : Nat
  hourly : Nat
  daily : Nat
deriving DecidableEq

/-- Interface `RateLimits`: current usage versus configured limits. -/
structure RateLimits where
  current : RateLimitUsage
  limits : RateLimitUsage
deriving DecidableEq

/-- Interface `ChartData`. -/
structure ChartData where
  chart_url : String
  chart_html : Option String
  chart_symbol : String
  chart_available : Bool
deriving DecidableEq

/-- The `rateLimitDetails` sub-record of the state. -/
structure RateLimitDetails where
  violation_type : String
  limit : Nat
  used : Nat
deriving DecidableEq

/-- Interface `ChatWebSocketState`: the React state record of the hook.
`rateLimitResetTime` is kept as epoch milliseconds. -/
structure ChatWebSocketState where
  isConnected : Bool
  isStreaming : Bool
  streamingContent : String
  error : Option String
  toolStatus : List ToolStatus
  rateLimits : Option RateLimits
  rateLimitExceeded : Bool
  rateLimitResetTime : Option Int
  rateLimitDetails : Option RateLimitDetails
  chartData : Option ChartData
deriving DecidableEq

/-- The initial value passed to `useState` in the hook. -/
def initialState : ChatWebSocketState where
  isConnected := false
  isStreaming := false
  streamingContent := ""
  error := none
  toolStatus := []
  rateLimits := none
  rateLimitExceeded := false
  rateLimitResetTime := none
  rateLimitDetails := none
  chartData := none

/-- Contents of `lastMessageMetadataRef` (`tokens_used`, `tools_used`,
`chart_url`, all optional; it starts out as the empty object). -/
structure MessageMetadata where
  tokens_used : Option Nat
  tools_used : Option (List String)
  chart_url : Option String
deriving DecidableEq

/-- The empty object assigned to `lastMessageMetadataRef`. -/
def MessageMetadata.empty : MessageMetadata where
  tokens_used := none
  tools_used := none
  chart_url := none

/-- The whole mutable state of one hook instance: the React state record
plus the refs that drive reconnection and streaming accumulation. -/
structure Session where
  state : ChatWebSocketState
  streamingContentRef : String
  reconnectAttemptsRef : Nat
  lastMessageMetadataRef : MessageMetadata
  currentChatIdRef : Option String
deriving DecidableEq

/-- Session as set up by `connect` for a given chat id, before any socket
event has been delivered. -/
def initialSession (chatId : String) : Session where
  state := initialState
  streamingContentRef := ""
  reconnectAttemptsRef := 0
  lastMessageMetadataRef := MessageMetadata.empty
  currentChatIdRef := some chatId

/-- `const maxReconnectAttempts = 5`. -/
def maxReconnectAttempts : Nat := 5

/-- `const reconnectBaseDelay = 3000`. -/
def reconnectBaseDelay : Nat := 3000

-- ==================== JS COALESCING HELPERS ====================

/-- JavaScript `a || b` on optional strings: `null`/`undefined` and the
empty string are falsy. -/
def jsOrStr : Option String → Option String → Option String
  | some s, b => if s = "" then b else some s
  | none, b => b

/-- JavaScript `a || d` where `d` is a (non-empty) string literal. -/
def jsOrStrD (a : Option String) (d : String) : String :=
  match a with
  | some s => if s = "" then d else s
  | none => d

/-- JavaScript `a || b` on optional numbers: `null`/`undefined` and `0`
are falsy. -/
def jsOrNat : Option Nat → Option Nat → Option Nat
  | some n, b => if n = 0 then b else some n
  | none, b => b

/-- JavaScript `a || b` on optional arrays: arrays are always truthy, so
only `null`/`undefined` falls through. -/
def orOpt {α : Type} : Option α → Option α → Option α
  | some x, _ => some x
  | none, b => b

/-- JavaScript `x || null` on an optional numeric timestamp
(`data.details?.reset_time || null`): `0` is coalesced to `null`. -/
def jsOrIntNull : Option Int → Option Int
  | some t => if t = 0 then none else some t
  | none => none

/-- JavaScript truthiness of an optional string (`data.chart_url`). -/
def jsStrTruthy : Option String → Bool
  | some s => s != ""
  | none => false

-- ==================== CONNECTION HANDLERS ====================

/-- `ws.onopen`: reset the attempt counter to 0, mark connected, clear
the error (the heartbeat interval it also starts carries no state). -/
def onOpen (s : Session) : Session :=
  { s with
    reconnectAttemptsRef := 0
    state := { s.state with isConnected := true, error := none } }

/-- `ws.onerror`: record a connection error. -/
def onSocketError (s : Session) : Session :=
  { s with state := { s.state with error := some "Connection error" } }

/-- The closure codes the `ws.onclose` handler refuses to reconnect
after: `event.code === 1000 || event.code === 1008 || event.code === 4001
|| event.code === 4003`. -/
def isTerminalCloseCode (code : Nat) : Bool :=
  code == 1000 || code == 1008 || code == 4001 || code == 4003

/-- `ws.onclose`: mark disconnected; on a terminal code do nothing more;
otherwise, while fewer than `maxReconnectAttempts` attempts have been
made (and a chat id is present), increment the counter and schedule a
reconnect after `min(reconnectBaseDelay * 2 ^ (attempt - 1), 30000)` ms
(returned as `some delay`); once attempts are exhausted, set the
persistent failure error and schedule nothing (`none`). -/
def onClose (code : Nat) (chatIdPresent : Bool) (s : Session) :
    Session × Option Nat :=
  let s1 : Session := { s with state := { s.state with isConnected := false } }
  if isTerminalCloseCode code then
    (s1, none)
  else if s1.reconnectAttemptsRef < maxReconnectAttempts ∧ chatIdPresent = true then
    let attempts := s1.reconnectAttemptsRef + 1
    let delay := min (reconnectBaseDelay * 2 ^ (attempts - 1)) 30000
    ({ s1 with reconnectAttemptsRef := attempts }, some delay)
  else
    ({ s1 with
        state := { s1.state with
          error := some "Failed to reconnect. Please refresh the page." } },
      none)

/-- Deliver `n` consecutive abnormal closes (code 1006, no intervening
open) and collect the reconnect delays scheduled along the way. -/
def runAbnormalCloses : Nat → Session → Session × List Nat
  | 0, s => (s, [])
  | n + 1, s =>
    let r1 := onClose 1006 true s
    let r2 := runAbnormalCloses n r1.1
    (r2.1, r1.2.toList ++ r2.2)

-- ==================== SEND MESSAGE ====================

/-- The outbound payload `{ type: 'message', message: message }`. -/
structure SendPayload where
  type : String
  message : String
deriving DecidableEq

/-- `sendMessage(targetChatId, message)`.  `socketOpen` models
`wsRef.current && wsRef.current.readyState === WebSocket.OPEN`; the
falsy-string check `!targetChatId` becomes `targetChatId = ""`.  The
result is the new session, the boolean return value, and the payload
transmitted on success.  Note that `targetChatId` is never compared with
`currentChatIdRef`. -/
def sendMessage (socketOpen : Bool) (targetChatId message : String)
    (s : Session) : Session × Bool × Option SendPayload :=
  if socketOpen = false then
    (s, false, none)
  else if targetChatId = "" then
    (s, false, none)
  else
    ({ s with
        streamingContentRef := ""
        lastMessageMetadataRef := MessageMetadata.empty
        state := { s.state with
          isStreaming := true
          streamingContent := ""
          error := none
          toolStatus := []
          chartData := none
          rateLimitExceeded := false } },
      true,
      some { type := "message", message := message })

-- ==================== PROTOCOL MESSAGES ====================

/-- The optional `data.metadata` object of a `complete` frame. -/
structure BackendMetadata where
  tokens_used : Option Nat
  tools_used : Option (List String)
  chart_url : Option String
  chart_html : Option String
deriving DecidableEq

/-- The empty object substituted by `data.metadata || {}`. -/
def BackendMetadata.empty : BackendMetadata where
  tokens_used := none
  tools_used := none
  chart_url := none
  chart_html := none

/-- The optional `data.details` object of a `rate_limit` frame
(`reset_time` as epoch milliseconds). -/
structure RateLimitMsgDetails where
  reset_time : Option Int
  violation_type : Option String
  limit : Option Nat
  used : Option Nat
deriving DecidableEq

/-- One parsed inbound frame, by discriminant tag.  `chunk` covers the
tags `chunk` and `text_chunk`; `complete` covers `complete` and
`message_complete`; `rate_limit` covers `rate_limit` and
`rate_limit_exceeded` — each pair shares a single `case` body. -/
inductive WSMsg where
  | connected (user_id chat_id : String)
  | rate_limit_info (current_usage limits : RateLimitUsage)
  | message_received (message_id : String)
  | tool_executing (tool_name : String) (tool_id : Option String)
      (timestamp : Option String)
  | tool_complete (tool_name : String)
  | tool_error (tool_name : String) (err : Option String)
  | chunk (chunkText content : Option String)
  | chart_generated (chart_available : Bool) (chart_url : Option String)
      (stock_symbol symbol : Option String)
  | complete (tokens_used : Option Nat) (tools_used : Option (List String))
      (metadata : Option BackendMetadata)
  | rate_limit (details : Option RateLimitMsgDetails)
      (err message : Option String)
  | error (message err : Option String)
  | pong
  | chat_renamed (chat_id new_name : String)
  | unknown (tag : String)
deriving DecidableEq

/-- The metadata handed to `onMessageComplete` by the `complete` case. -/
structure CompleteMetadata where
  tokens_used : Option Nat
  tools_used : Option (List String)
  chart_url : Option String
  chart_html : Option String
deriving DecidableEq

/-- Effects of a handler beyond the state update: the user-supplied
callbacks, timer scheduling, payload transmission, and the log emitted
when a frame fails to parse. -/
inductive Effect where
  | callMessageComplete (content : String) (meta : CompleteMetadata)
  | callError (msg : String)
  | callChartGenerated (cd : ChartData)
  | callRateLimitExceeded (msg : String)
  | callChatRenamed (chatId newName : String)
  | scheduleToolRemoval (tool_name : String) (delayMs : Nat)
  | logParseFailure
deriving DecidableEq

/-- The metadata computation of the `complete` case:
`tokens_used: data.tokens_used || backendMetadata.tokens_used`,
`tools_used: data.tools_used || backendMetadata.tools_used ||
lastMessageMetadataRef.current.tools_used`,
`chart_url: backendMetadata.chart_url ||
lastMessageMetadataRef.current.chart_url`,
`chart_html: backendMetadata.chart_html`. -/
def completeMetadata (tokens_used : Option Nat)
    (tools_used : Option (List String)) (metadata : Option BackendMetadata)
    (ref : MessageMetadata) : CompleteMetadata :=
  let bm := metadata.getD BackendMetadata.empty
  { tokens_used := jsOrNat tokens_used bm.tokens_used
    tools_used := orOpt tools_used (orOpt bm.tools_used ref.tools_used)
    chart_url := jsOrStr bm.chart_url ref.chart_url
    chart_html := bm.chart_html }

/-- Minutes until the rate-limit reset:
`Math.ceil(diffMs / 60000)` (ceiling division, divisor positive). -/
def minutesUntilReset (diffMs : Int) : Int :=
  (diffMs + 59999).ediv 60000

/-- The human-readable reset estimate appended to the rate-limit error:
hours (`Math.floor(diffMins / 60)`) when more than 60 minutes remain,
else minutes when any remain, else a try-again message; plural `s`
exactly when the printed number exceeds 1. -/
def rateLimitResetMessage (diffMs : Int) : String :=
  let diffMins := minutesUntilReset diffMs
  if 60 < diffMins then
    let hours := diffMins.ediv 60
    " Resets in " ++ toString hours ++ " hour" ++
      (if 1 < hours then "s" else "") ++ "."
  else if 0 < diffMins then
    " Resets in " ++ toString diffMins ++ " minute" ++
      (if 1 < diffMins then "s" else "") ++ "."
  else
    " Please try again."

/-- The `ws.onmessage` dispatch on a successfully parsed frame.
`nowMs` models `Date.now()` / `new Date().getTime()`, `nowStr` its
string form `Date.now().toString()` and `nowIso`
`new Date().toISOString()`. -/
def handleMessage (nowMs : Int) (nowStr nowIso : String) (msg : WSMsg)
    (s : Session) : Session × List Effect :=
  match msg with
  | .connected _ _ => (s, [])
  | .rate_limit_info current_usage limits =>
    ({ s with state := { s.state with
        rateLimits := some { current := current_usage, limits := limits } } },
      [])
  | .message_received _ => (s, [])
  | .tool_executing tool_name tool_id timestamp =>
    ({ s with
        state := { s.state with
          toolStatus := s.state.toolStatus ++
            [{ tool_name := tool_name
               tool_id := jsOrStrD tool_id nowStr
               status := ToolState.executing
               timestamp := jsOrStrD timestamp nowIso }] }
        lastMessageMetadataRef := { s.lastMessageMetadataRef with
          tools_used := some
            (s.lastMessageMetadataRef.tools_used.getD [] ++ [tool_name]) } },
      [])
  | .tool_complete tool_name =>
    ({ s with state := { s.state with
        toolStatus := s.state.toolStatus.map fun t =>
          if t.tool_name = tool_name
          then { t with status := ToolState.complete } else t } },
      [Effect.scheduleToolRemoval tool_name 2000])
  | .tool_error tool_name _ =>
    ({ s with state := { s.state with
        toolStatus := s.state.toolStatus.map fun t =>
          if t.tool_name = tool_name
          then { t with status := ToolState.error } else t } },
      [])
  | .chunk chunkText content =>
    let chunkContent := jsOrStrD (jsOrStr chunkText content) ""
    let newRef := s.streamingContentRef ++ chunkContent
    ({ s with
        streamingContentRef := newRef
        state := { s.state with
          isStreaming := true
          streamingContent := newRef } },
      [])
  | .chart_generated chart_available chart_url stock_symbol symbol =>
    if chart_available = true ∧ jsStrTruthy chart_url = true then
      let cd : ChartData :=
        { chart_url := chart_url.getD ""
          chart_html := none
          chart_symbol := jsOrStrD (jsOrStr stock_symbol symbol) ""
          chart_available := true }
      ({ s with
          state := { s.state with chartData := some cd }
          lastMessageMetadataRef := { s.lastMessageMetadataRef with
            chart_url := chart_url } },
        [Effect.callChartGenerated cd])
    else (s, [])
  | .complete tokens_used tools_used metadata =>
    let finalContent := s.streamingContentRef
    let meta := completeMetadata tokens_used tools_used metadata
      s.lastMessageMetadataRef
    ({ s with
        streamingContentRef := ""
        lastMessageMetadataRef := MessageMetadata.empty
        state := { s.state with
          isStreaming := false
          streamingContent := ""
          toolStatus := []
          chartData := none } },
      [Effect.callMessageComplete finalContent meta])
  | .rate_limit details err message =>
    let resetTime := jsOrIntNull (details.bind RateLimitMsgDetails.reset_time)
    let violationType :=
      jsOrStrD (details.bind RateLimitMsgDetails.violation_type) "unknown"
    let limitValue := (details.bind RateLimitMsgDetails.limit).getD 0
    let usedValue := (details.bind RateLimitMsgDetails.used).getD 0
    let resetMessage :=
      match resetTime with
      | some t => rateLimitResetMessage (t - nowMs)
      | none => ""
    let errorMsg :=
      jsOrStrD (jsOrStr err message) "Rate limit exceeded." ++ resetMessage
    ({ s with state := { s.state with
        error := some errorMsg
        isStreaming := false
        rateLimitExceeded := true
        rateLimitResetTime := resetTime
        rateLimitDetails :=
          if resetTime.isSome then
            some { violation_type := violationType, limit := limitValue,
                   used := usedValue }
          else none } },
      [Effect.callRateLimitExceeded errorMsg, Effect.callError errorMsg])
  | .error message err =>
    let errMessage := jsOrStrD (jsOrStr message err) "An error occurred"
    ({ s with state := { s.state with
        error := some errMessage
        isStreaming := false } },
      [Effect.callError errMessage])
  | .pong => (s, [])
  | .chat_renamed chat_id new_name =>
    (s, [Effect.callChatRenamed chat_id new_name])
  | .unknown _ => (s, [])

/-- The full `ws.onmessage` handler: `JSON.parse` in a `try` block whose
`catch` only logs, so an unparseable frame (`none`) leaves the session
untouched. -/
def onRawMessage (nowMs : Int) (nowStr nowIso : String)
    (parsed : Option WSMsg) (s : Session) : Session × List Effect :=
  match parsed with
  | none => (s, [Effect.logParseFailure])
  | some msg => handleMessage nowMs nowStr nowIso msg s

/-- The callback scheduled 2 s after a `tool_complete` frame:
`toolStatus.filter(t => t.tool_name !== data.tool_name)`. -/
def removeToolByName (tool_name : String) (s : Session) : Session :=
  { s with state := { s.state with
      toolStatus := s.state.toolStatus.filter fun t =>
        t.tool_name != tool_name } }

-- ==================== SPECIFIC SESSIONS AND PREDICATES ====================

/-- A session whose socket is connected to chat `chat-a`. -/
def sessionOnChatA : Session :=
  { initialSession "chat-a" with
    state := { initialState with isConnected := true } }

/-- The session after `tool_executing(lookup_price)`,
`tool_complete(lookup_price)`, then `tool_executing(lookup_price)` again,
delivered before the 2-second dismissal timer fires. -/
def lookupPriceReplaySession : Session :=
  let s1 := (handleMessage 0 "fb-id" "fb-ts"
    (WSMsg.tool_executing "lookup_price" (some "t1") (some "ts1"))
    (initialSession "chat")).1
  let s2 := (handleMessage 0 "fb-id" "fb-ts"
    (WSMsg.tool_complete "lookup_price") s1).1
  (handleMessage 0 "fb-id" "fb-ts"
    (WSMsg.tool_executing "lookup_price" (some "t2") (some "ts2")) s2).1

/-- `sub` occurs inside `s` as a contiguous substring. -/
def containsSub (s sub : String) : Prop :=
  ∃ pre post, s = pre ++ (sub ++ post)

/-- A `rate_limit` details object whose reset lies 90 minutes past
epoch 0. -/
def ninetyMinuteDetails : RateLimitMsgDetails where
  reset_time := some 5400000
  violation_type := some "hourly"
  limit := some 10
  used := some 10

/-- A session that has accumulated a partial streamed reply. -/
def partialStreamSession : Session :=
  (handleMessage 0 "fb-id" "fb-ts"
    (WSMsg.chunk (some "The price of ") none)
    lookupPriceReplaySession).1

-- ==================== CLAIMS ====================

/-- C1: For every reconnect attempt n with 1 ≤ n ≤ maxReconnectAttempts
(default 5, base delay 3000 ms, cap 30000 ms), the delay scheduled before
attempt n equals min(3000 × 2^(n−1), 30000) — so five consecutive
abnormal closes schedule 3000, 6000, 12000, 24000, 30000 ms — and the
attempt counter is reset to 0 immediately after a successful socket
open. -/
theorem reconnect_backoff_formula (n code : Nat) (s : Session)
    (hn1 : 1 ≤ n) (hn5 : n ≤ maxReconnectAttempts)
    (hatt : s.reconnectAttemptsRef = n - 1)
    (hcode : isTerminalCloseCode code = false) :
    (onClose code true s).2 = some (min (3000 * 2 ^ (n - 1)) 30000) ∧
    (runAbnormalCloses 5 (initialSession "chat")).2
      = [3000, 6000, 12000, 24000, 30000] ∧
    ∀ t : Session, (onOpen t).reconnectAttemptsRef = 0 := by
  refine ⟨?_, by decide, fun t => rfl⟩
  have h5 : s.reconnectAttemptsRef < maxReconnectAttempts := by
    rw [hatt]; unfold maxReconnectAttempts at hn5 ⊢; omega
  have hsub : s.reconnectAttemptsRef + 1 - 1 = n - 1 := by omega
  simp [onClose, hcode, h5, hsub, reconnectBaseDelay]

/-- Witness for C1 at attempt n = 5: the scheduled delay is the capped
30000 ms. -/
theorem reconnect_backoff_formula_witness :
    (onClose 1006 true
        { initialSession "chat" with reconnectAttemptsRef := 4 }).2
      = some (min (3000 * 2 ^ (5 - 1)) 30000) ∧
    (runAbnormalCloses 5 (initialSession "chat")).2
      = [3000, 6000, 12000, 24000, 30000] ∧
    ∀ t : Session, (onOpen t).reconnectAttemptsRef = 0 :=
  reconnect_backoff_formula 5 1006
    { initialSession "chat" with reconnectAttemptsRef := 4 }
    (by decide) (by decide) rfl rfl

/-- C2 counterexample: after exactly five consecutive abnormal closures
the session has NOT entered the failed state — the fifth closure still
schedules a reconnect (its delay 30000 ms is the fifth entry of the
delay list), the error is still unset, and the counter sits at 5. -/
theorem five_closes_not_yet_failed :
    (runAbnormalCloses 5 (initialSession "chat")).2.getLast? = some 30000 ∧
    (runAbnormalCloses 5 (initialSession "chat")).1.state.error = none ∧
    (runAbnormalCloses 5 (initialSession "chat")).1.reconnectAttemptsRef
      = maxReconnectAttempts := by
  decide

/-- C2 (amended): the terminal failed state is entered on the closure
that finds the attempt counter exhausted — with the default
configuration, on the sixth consecutive abnormal closure (the close of
the fifth and last reconnect attempt).  At that point the persistent
error `Failed to reconnect. Please refresh the page.` is surfaced, no
sixth delay is scheduled, and any further closure (whatever its code)
schedules nothing while the counter stays exhausted. -/
theorem reconnect_exhaustion_on_sixth_close :
    (runAbnormalCloses 6 (initialSession "chat")).1.state.error
      = some "Failed to reconnect. Please refresh the page." ∧
    (runAbnormalCloses 6 (initialSession "chat")).2
      = [3000, 6000, 12000, 24000, 30000] ∧
    ∀ (code : Nat) (b : Bool) (s : Session),
      maxReconnectAttempts ≤ s.reconnectAttemptsRef →
      (onClose code b s).2 = none := by
  refine ⟨by decide, by decide, ?_⟩
  intro code b s h
  unfold onClose
  by_cases hc : isTerminalCloseCode code
  · simp [hc]
  · have hlt : ¬ (s.reconnectAttemptsRef < maxReconnectAttempts ∧ b = true) := by
      intro hcontra
      exact absurd hcontra.1 (by omega)
    simp [hc, hlt]

/-- Witness for C2 (amended): a seventh abnormal closure after the six
that exhausted the counter schedules no reconnect. -/
theorem reconnect_exhaustion_on_sixth_close_witness :
    (onClose 1006 true (runAbnormalCloses 6 (initialSession "chat")).1).2
      = none :=
  reconnect_exhaustion_on_sixth_close.2.2 1006 true
    (runAbnormalCloses 6 (initialSession "chat")).1 (by decide)

/-- C9: the terminal closure-code set is exactly \x7b1000, 1008, 4001,
4003\x7d (normal closure plus the three policy/auth-rejection codes); a
closure with a terminal code never schedules a reconnect, and whenever a
reconnect is scheduled the closure code was outside the terminal set. -/
theorem terminal_codes_never_reconnect (code : Nat) (b : Bool) (s : Session) :
    (isTerminalCloseCode code = true ↔
      (code = 1000 ∨ code = 1008 ∨ code = 4001 ∨ code = 4003)) ∧
    (isTerminalCloseCode code = true → (onClose code b s).2 = none) ∧
    (∀ d : Nat, (onClose code b s).2 = some d →
      isTerminalCloseCode code = false) := by
  refine ⟨?_, ?_, ?_⟩
  · simp only [isTerminalCloseCode, Bool.or_eq_true, beq_iff_eq]
    tauto
  · intro h
    simp [onClose, h]
  · intro d hd
    cases hct : isTerminalCloseCode code
    · rfl
    · simp [onClose, hct] at hd

/-- Witness for C9: a normal closure (code 1000) of a fresh session
schedules no reconnect. -/
theorem terminal_codes_never_reconnect_witness :
    (onClose 1000 true (initialSession "chat")).2 = none :=
  (terminal_codes_never_reconnect 1000 true (initialSession "chat")).2.1 rfl

/-- C3 counterexample: with the socket open for chat `chat-a`, a send
aimed at the different chat `chat-b` nevertheless succeeds —
`sendMessage` never compares its chat-id argument with the session's
current target, contradicting the claimed precondition. -/
theorem sendMessage_target_mismatch_still_succeeds :
    (sendMessage true "chat-b" "hi" sessionOnChatA).2.1 = true ∧
    sessionOnChatA.currentChatIdRef = some "chat-a" ∧
    "chat-b" ≠ "chat-a" := by
  decide

/-- C3 (amended): `sendMessage(chatId, text)` succeeds exactly when the
socket is open and the given `chatId` is non-empty — the id is never
compared with the session's current target chat (the target is fixed by
the socket URL).  On success the payload `\x7btype: "message", message:
text\x7d` is transmitted; on failure it returns `false` without throwing
and without touching the session. -/
theorem sendMessage_success_iff (sockOpen : Bool) (target msg : String)
    (s : Session) :
    ((sendMessage sockOpen target msg s).2.1 = true ↔
      (sockOpen = true ∧ target ≠ "")) ∧
    ((sendMessage sockOpen target msg s).2.1 = false →
      (sendMessage sockOpen target msg s).2.2 = none ∧
      (sendMessage sockOpen target msg s).1 = s) ∧
    ((sendMessage sockOpen target msg s).2.1 = true →
      (sendMessage sockOpen target msg s).2.2
        = some { type := "message", message := msg }) := by
  cases sockOpen
  · simp [sendMessage]
  · by_cases ht : target = "" <;> simp [sendMessage, ht]

/-- Witness for C3 (amended): the open-socket, non-empty-id send of the
counterexample transmits its payload. -/
theorem sendMessage_success_iff_witness :
    (sendMessage true "chat-b" "hi" sessionOnChatA).2.2
      = some { type := "message", message := "hi" } :=
  (sendMessage_success_iff true "chat-b" "hi" sessionOnChatA).2.2 (by decide)

/-- C4: when the socket is not open (e.g. still connecting), `sendMessage`
returns `false` — the failure is reported to the caller — and the entire
session (streaming buffer, tool-status list, error, rate-limit flags and
all refs) is left unchanged, with no payload transmitted. -/
theorem sendMessage_not_open_unchanged (target msg : String) (s : Session) :
    sendMessage false target msg s = (s, false, none) := by
  rfl

/-- Witness for C4 on a concrete connecting-phase session. -/
theorem sendMessage_not_open_unchanged_witness :
    sendMessage false "chat-a" "hi" (initialSession "chat-a")
      = (initialSession "chat-a", false, none) :=
  sendMessage_not_open_unchanged "chat-a" "hi" (initialSession "chat-a")

/-- C5: the `tool_complete` frame schedules a 2-second removal keyed on
the tool NAME; when the timer fires after `lookup_price` has been
re-added as executing, the filter deletes every entry named
`lookup_price` — the completed one AND the new executing one — leaving
the tool-status list empty instead of the single executing entry the
specification expects. -/
theorem lookup_price_replay_dismisses_executing_tool :
    (handleMessage 0 "fb-id" "fb-ts" (WSMsg.tool_complete "lookup_price")
        ((handleMessage 0 "fb-id" "fb-ts"
          (WSMsg.tool_executing "lookup_price" (some "t1") (some "ts1"))
          (initialSession "chat")).1)).2
      = [Effect.scheduleToolRemoval "lookup_price" 2000] ∧
    lookupPriceReplaySession.state.toolStatus
      = [{ tool_name := "lookup_price", tool_id := "t1",
           status := ToolState.complete, timestamp := "ts1" },
         { tool_name := "lookup_price", tool_id := "t2",
           status := ToolState.executing, timestamp := "ts2" }] ∧
    (removeToolByName "lookup_price" lookupPriceReplaySession).state.toolStatus
      = [] := by
  decide

/-- C6: a `complete`/`message_complete` frame always resets the
streaming buffer and its ref to empty, empties the tool-status list,
clears the chart reference, marks the turn not-streaming, resets the
accumulated metadata ref, and hands the finalized content together with
the accumulated metadata to the completion callback — whatever the
session held beforehand. -/
theorem complete_clears_turn (nowMs : Int) (nowStr nowIso : String)
    (tokens_used : Option Nat) (tools_used : Option (List String))
    (metadata : Option BackendMetadata) (s : Session) :
    (handleMessage nowMs nowStr nowIso
        (WSMsg.complete tokens_used tools_used metadata) s).1
      = { s with
          streamingContentRef := ""
          lastMessageMetadataRef := MessageMetadata.empty
          state := { s.state with
            isStreaming := false
            streamingContent := ""
            toolStatus := []
            chartData := none } } ∧
    (handleMessage nowMs nowStr nowIso
        (WSMsg.complete tokens_used tools_used metadata) s).2
      = [Effect.callMessageComplete s.streamingContentRef
          (completeMetadata tokens_used tools_used metadata
            s.lastMessageMetadataRef)] :=
  ⟨rfl, rfl⟩

/-- Witness for C6 on a mid-stream session with a non-empty buffer, a
live tool entry and a chart reference. -/
theorem complete_clears_turn_witness :
    (handleMessage 0 "fb-id" "fb-ts" (WSMsg.complete (some 7) none none)
        lookupPriceReplaySession).1
      = { lookupPriceReplaySession with
          streamingContentRef := ""
          lastMessageMetadataRef := MessageMetadata.empty
          state := { lookupPriceReplaySession.state with
            isStreaming := false
            streamingContent := ""
            toolStatus := []
            chartData := none } } ∧
    (handleMessage 0 "fb-id" "fb-ts" (WSMsg.complete (some 7) none none)
        lookupPriceReplaySession).2
      = [Effect.callMessageComplete
          lookupPriceReplaySession.streamingContentRef
          (completeMetadata (some 7) none none
            lookupPriceReplaySession.lastMessageMetadataRef)] :=
  complete_clears_turn 0 "fb-id" "fb-ts" (some 7) none none
    lookupPriceReplaySession

/-- C7: the human-readable reset estimate is hours when more than 60
minutes remain (plural `s` exactly when more than one hour is printed),
else minutes when any time remains, else a try-again message; a
reset_time 90 minutes in the future yields the suffix
` Resets in 1 hour.` (containing `hour`, singular since exactly one hour
is printed), and the rate-limit handler sets the error to the
server message plus that suffix, sets the rate-limit-exceeded flag, and
marks the turn not-streaming. -/
theorem rate_limit_reset_estimate :
    (∀ diffMs : Int, 60 < minutesUntilReset diffMs →
      containsSub (rateLimitResetMessage diffMs) "hour") ∧
    (∀ diffMs : Int, 0 < minutesUntilReset diffMs →
      minutesUntilReset diffMs ≤ 60 →
      containsSub (rateLimitResetMessage diffMs) "minute") ∧
    (∀ diffMs : Int, minutesUntilReset diffMs ≤ 0 →
      rateLimitResetMessage diffMs = " Please try again.") ∧
    rateLimitResetMessage 5400000 = " Resets in 1 hour." ∧
    rateLimitResetMessage 9000000 = " Resets in 2 hours." ∧
    (handleMessage 0 "fb-id" "fb-ts"
        (WSMsg.rate_limit (some ninetyMinuteDetails) none none)
        (initialSession "chat")).1.state.error
      = some "Rate limit exceeded. Resets in 1 hour." ∧
    (handleMessage 0 "fb-id" "fb-ts"
        (WSMsg.rate_limit (some ninetyMinuteDetails) none none)
        (initialSession "chat")).1.state.rateLimitExceeded = true ∧
    (handleMessage 0 "fb-id" "fb-ts"
        (WSMsg.rate_limit (some ninetyMinuteDetails) none none)
        (initialSession "chat")).1.state.isStreaming = false := by
  have hsph : (" hour" : String) = " " ++ "hour" := rfl
  have hspm : (" minute" : String) = " " ++ "minute" := rfl
  refine ⟨?_, ?_, ?_, by decide, by decide, by decide, by decide, by decide⟩
  · intro diffMs h
    refine ⟨" Resets in " ++ toString ((minutesUntilReset diffMs).ediv 60)
        ++ " ",
      (if 1 < (minutesUntilReset diffMs).ediv 60 then "s" else "") ++ ".",
      ?_⟩
    simp only [rateLimitResetMessage]
    rw [if_pos h]
    simp only [String.append_assoc]
    rw [hsph]
    simp only [String.append_assoc]
  · intro diffMs h1 h2
    refine ⟨" Resets in " ++ toString (minutesUntilReset diffMs) ++ " ",
      (if 1 < minutesUntilReset diffMs then "s" else "") ++ ".", ?_⟩
    simp only [rateLimitResetMessage]
    rw [if_neg (by omega), if_pos h1]
    simp only [String.append_assoc]
    rw [hspm]
    simp only [String.append_assoc]
  · intro diffMs h
    simp only [rateLimitResetMessage]
    rw [if_neg (by omega), if_neg (by omega)]

/-- Witness for C7: the 90-minute reset estimate contains `hour`. -/
theorem rate_limit_reset_estimate_witness :
    containsSub (rateLimitResetMessage 5400000) "hour" :=
  rate_limit_reset_estimate.1 5400000 (by decide)

/-- C8: an inbound frame whose payload fails to parse is caught by the
handler, which only logs the failure: the session is returned verbatim
and no state-mutating effect is produced. -/
theorem unparseable_frame_leaves_state_unchanged (nowMs : Int)
    (nowStr nowIso : String) (s : Session) :
    onRawMessage nowMs nowStr nowIso none s
      = (s, [Effect.logParseFailure]) :=
  rfl

/-- Witness for C8 on a mid-stream session. -/
theorem unparseable_frame_leaves_state_unchanged_witness :
    onRawMessage 0 "fb-id" "fb-ts" none partialStreamSession
      = (partialStreamSession, [Effect.logParseFailure]) :=
  unparseable_frame_leaves_state_unchanged 0 "fb-id" "fb-ts"
    partialStreamSession

/-- C10: a generic `error` frame sets the error message (with the JS
`message || error || default` coalescing) and marks the turn
not-streaming, while every other field of the session — the streaming
buffer and its ref, the tool-status list, the rate-limit snapshot and
flags, and the chart reference — keeps its prior value; the only effect
is the error callback. -/
theorem error_frame_preserves_streamed_text (nowMs : Int)
    (nowStr nowIso : String) (message err : Option String) (s : Session) :
    (handleMessage nowMs nowStr nowIso (WSMsg.error message err) s).1
      = { s with state := { s.state with
          error := some (jsOrStrD (jsOrStr message err) "An error occurred")
          isStreaming := false } } ∧
    (handleMessage nowMs nowStr nowIso (WSMsg.error message err) s).1.state.streamingContent
      = s.state.streamingContent ∧
    (handleMessage nowMs nowStr nowIso (WSMsg.error message err) s).1.streamingContentRef
      = s.streamingContentRef ∧
    (handleMessage nowMs nowStr nowIso (WSMsg.error message err) s).1.state.toolStatus
      = s.state.toolStatus ∧
    (handleMessage nowMs nowStr nowIso (WSMsg.error message err) s).1.state.rateLimits
      = s.state.rateLimits ∧
    (handleMessage nowMs nowStr nowIso (WSMsg.error message err) s).1.state.rateLimitExceeded
      = s.state.rateLimitExceeded ∧
    (handleMessage nowMs nowStr nowIso (WSMsg.error message err) s).1.state.rateLimitResetTime
      = s.state.rateLimitResetTime ∧
    (handleMessage nowMs nowStr nowIso (WSMsg.error message err) s).1.state.rateLimitDetails
      = s.state.rateLimitDetails ∧
    (handleMessage nowMs nowStr nowIso (WSMsg.error message err) s).1.state.chartData
      = s.state.chartData ∧
    (handleMessage nowMs nowStr nowIso (WSMsg.error message err) s).2
      = [Effect.callError (jsOrStrD (jsOrStr message err) "An error occurred")] :=
  ⟨rfl, rfl, rfl, rfl, rfl, rfl, rfl, rfl, rfl, rfl⟩

/-- Witness for C10 on a session holding a partially streamed reply and
a live tool entry: the buffer survives the error frame. -/
theorem error_frame_preserves_streamed_text_witness :
    (handleMessage 0 "fb-id" "fb-ts"
        (WSMsg.error (some "boom") none) partialStreamSession).1
      = { partialStreamSession with
          state := { partialStreamSession.state with
            error := some (jsOrStrD (jsOrStr (some "boom") none)
              "An error occurred")
            isStreaming := false } } ∧
    (handleMessage 0 "fb-id" "fb-ts"
        (WSMsg.error (some "boom") none) partialStreamSession).1.state.streamingContent
      = partialStreamSession.state.streamingContent ∧
    (handleMessage 0 "fb-id" "fb-ts"
        (WSMsg.error (some "boom") none) partialStreamSession).1.streamingContentRef
      = partialStreamSession.streamingContentRef ∧
    (handleMessage 0 "fb-id" "fb-ts"
        (WSMsg.error (some "boom") none) partialStreamSession).1.state.toolStatus
      = partialStreamSession.state.toolStatus ∧
    (handleMessage 0 "fb-id" "fb-ts"
        (WSMsg.error (some "boom") none) partialStreamSession).1.state.rateLimits
      = partialStreamSession.state.rateLimits ∧
    (handleMessage 0 "fb-id" "fb-ts"
        (WSMsg.error (some "boom") none) partialStreamSession).1.state.rateLimitExceeded
      = partialStreamSession.state.rateLimitExceeded ∧
    (handleMessage 0 "fb-id" "fb-ts"
        (WSMsg.error (some "boom") none) partialStreamSession).1.state.rateLimitResetTime
      = partialStreamSession.state.rateLimitResetTime ∧
    (handleMessage 0 "fb-id" "fb-ts"
        (WSMsg.error (some "boom") none) partialStreamSession).1.state.rateLimitDetails
      = partialStreamSession.state.rateLimitDetails ∧
    (handleMessage 0 "fb-id" "fb-ts"
        (WSMsg.error (some "boom") none) partialStreamSession).1.state.chartData
      = partialStreamSession.state.chartData ∧
    (handleMessage 0 "fb-id" "fb-ts"
        (WSMsg.error (some "boom") none) partialStreamSession).2
      = [Effect.callError (jsOrStrD (jsOrStr (some "boom") none)
          "An error occurred")] :=
  error_frame_preserves_streamed_text 0 "fb-id" "fb-ts" (some "boom") none
    partialStreamSession

end Kubera
